import Mathlib

/-!
Verification of the front-end logic of the Digital Media Persuasion Analyzer
(`src/script.js`), as a shallow embedding in Lean 4.

Numbers are modelled as rationals (`ℚ`): every arithmetic expression in the
source (`(end-start)/(duration/16)`, `((p+1)/2)*100`, threshold comparisons,
`Math.round`) is exact linear rational arithmetic on the values the claims
quantify over.  Stateful DOM manipulation is modelled by explicit state
passing over a `UIState` record; the asynchronous click handler is modelled
as a function of the (deterministic) fetch outcome; `setInterval` tweens are
modelled as an explicit tick-indexed step function.
-/

namespace DMPA

/-- The whitespace class trimmed by JavaScript's `String.prototype.trim`
(the ASCII part; the claims do not depend on the exact Unicode set). -/
def jsWhitespace (c : Char) : Bool :=
  c = ' ' || c = '\t' || c = '\n' || c = '\r' || c = '\x0b' || c = '\x0c'

/-- JavaScript's `String.prototype.trim`: drop leading and trailing
whitespace. -/
def jsTrim (s : String) : String :=
  ⟨((s.data.dropWhile jsWhitespace).reverse.dropWhile jsWhitespace).reverse⟩

/-- JavaScript's `Math.round`: round half toward positive infinity. -/
def jsRound (q : ℚ) : ℤ := ⌊q + 1/2⌋

/-- JavaScript's `Number.prototype.toFixed(3)`, as the rational value the
rendered decimal string denotes: the argument rounded to 3 decimal places. -/
def toFixed3 (q : ℚ) : ℚ := (jsRound (q * 1000) : ℚ) / 1000

/-- JavaScript's `Number.prototype.toFixed(1)`, as the rational value the
rendered decimal string denotes: the argument rounded to 1 decimal place. -/
def toFixed1 (q : ℚ) : ℚ := (jsRound (q * 10) : ℚ) / 10

/-- `key.charAt(0).toUpperCase() + key.slice(1)` from `displayEmotionChart`. -/
def capitalizeFirst (s : String) : String :=
  match s.data with
  | [] => ""
  | c :: rest => ⟨c.toUpper :: rest⟩

/-- Replace the first occurrence of a character in a character list:
JavaScript's `String.prototype.replace` with a string pattern rewrites only
the first match. -/
def replaceFirstChar (target repl : Char) : List Char → List Char
  | [] => []
  | c :: rest => if c = target then repl :: rest else c :: replaceFirstChar target repl rest

/-- `category.replace(&#95;, space)` from `displayKeywords` (first underscore only). -/
def jsReplaceUnderscore (s : String) : String := ⟨replaceFirstChar '_' ' ' s.data⟩

/-- `sentiment` object of the `AnalysisResult` payload. -/
structure Sentiment where
  polarity : ℚ
  subjectivity : ℚ
deriving Repr, DecidableEq

/-- `persuasive_keywords` object of the `AnalysisResult` payload.
`by_category` is a JS object, modelled as its insertion-ordered entry list
(the order `Object.entries` iterates). -/
structure Keywords where
  count : ℤ
  by_category : List (String × ℤ)
  words_found : List String
deriving Repr, DecidableEq

/-- The parsed success-response body (spec §3).  `emotions` is a JS object,
modelled as its insertion-ordered entry list (the order `Object.keys` /
`Object.values` iterate). -/
structure AnalysisResult where
  persuasion_score : ℚ
  persuasion_label : String
  ethical_score : ℚ
  ethical_reflection : String
  sentiment : Sentiment
  emotions : List (String × ℚ)
  persuasive_keywords : Keywords
  highlighted_text : String
deriving Repr, DecidableEq

/-- One segment of the Chart.js doughnut chart: Chart.js pairs `labels[i]`,
`data[i]` and `backgroundColor[i]` positionally.  A segment whose index is
past the end of the `backgroundColor` array has no explicit color (`none`). -/
structure ChartSegment where
  label : String
  value : ℚ
  color : Option String
deriving Repr, DecidableEq

/-- The chart object created by `new Chart(ctx, ...)` in `displayEmotionChart`. -/
structure ChartInstance where
  segments : List ChartSegment
deriving Repr, DecidableEq

/-- The `backgroundColor` array of `displayEmotionChart`. -/
def emotionPalette : List String := ["#10b981", "#ef4444", "#dc2626", "#3b82f6"]

/-- Build the chart segments: element `i` pairs the capitalized `i`-th key,
the `i`-th value and the `i`-th palette entry, exactly as Chart.js consumes
the positional `labels` / `data` / `backgroundColor` arrays. -/
def mkSegments : ℕ → List (String × ℚ) → List ChartSegment
  | _, [] => []
  | i, (k, v) :: rest => ⟨capitalizeFirst k, v, emotionPalette.get? i⟩ :: mkSegments (i + 1) rest

/-- The chart built by `displayEmotionChart` from the `emotions` mapping. -/
def mkEmotionChart (emotions : List (String × ℚ)) : ChartInstance :=
  ⟨mkSegments 0 emotions⟩

/-- The tooltip callback of `displayEmotionChart`:
`context.label + ": " + context.parsed.toFixed(1) + "%"`, modelled as the
label together with the one-decimal value it renders. -/
def chartTooltip (seg : ChartSegment) : String × ℚ := (seg.label, toFixed1 seg.value)

/-- The color of the first chart segment carrying a given label, if any
(`none` if no segment has the label). -/
def segmentColorFor (c : ChartInstance) (lab : String) : Option (Option String) :=
  (c.segments.find? (fun seg => seg.label = lab)).map ChartSegment.color

/-- The visible page state the script mutates.  Text regions whose content is
a formatted number hold the rational/integer value the text denotes;
`chartsAlive` counts chart objects created and not yet `destroy()`ed;
`alerts` collects the blocking notices raised by `alert(...)` in order. -/
structure UIState where
  loadingVisible : Bool
  resultsVisible : Bool
  analyzeBtnDisabled : Bool
  emotionChart : Option ChartInstance
  chartsAlive : ℕ
  gaugeDashoffset : Option ℚ
  gaugeStroke : Option String
  gaugeScoreText : Option ℤ
  persuasionLabelText : String
  ethicalDashoffset : Option ℚ
  ethicalStroke : Option String
  ethicalTextFill : Option String
  ethicalScoreText : Option ℤ
  ethicalReflectionText : String
  polarityBarWidth : Option ℚ
  subjectivityBarWidth : Option ℚ
  polarityValueText : Option ℚ
  subjectivityValueText : Option ℚ
  keywordCountText : Option ℤ
  keywordCategoryRows : List (String × ℤ)
  keywordTags : List String
  keywordPlaceholder : Bool
  highlightedHTML : String
  alerts : List String
deriving Repr, DecidableEq

/-- The page state on load: spinner hidden, results hidden, trigger enabled,
no chart, empty regions. -/
def initialUI : UIState where
  loadingVisible := false
  resultsVisible := false
  analyzeBtnDisabled := false
  emotionChart := none
  chartsAlive := 0
  gaugeDashoffset := none
  gaugeStroke := none
  gaugeScoreText := none
  persuasionLabelText := ""
  ethicalDashoffset := none
  ethicalStroke := none
  ethicalTextFill := none
  ethicalScoreText := none
  ethicalReflectionText := ""
  polarityBarWidth := none
  subjectivityBarWidth := none
  polarityValueText := none
  subjectivityValueText := none
  keywordCountText := none
  keywordCategoryRows := []
  keywordTags := []
  keywordPlaceholder := false
  highlightedHTML := ""
  alerts := []

/-! ### The number-animation tween (`animateNumber`, script.js 170-183) -/

/-- State of one `animateNumber` interval timer: the accumulated `current`
value, whether the `setInterval` timer is still registered (`active`), and the
last integer written to `element.textContent` (`none` before the first tick). -/
structure TweenState where
  current : ℚ
  active : Bool
  rendered : Option ℤ
deriving Repr, DecidableEq

/-- `const increment = range / (duration / 16)` with `range = end - start`. -/
def tweenIncrement (start finish duration : ℚ) : ℚ :=
  (finish - start) / (duration / 16)

/-- One firing of the `setInterval` callback in `animateNumber`: add the
increment; if the sum reached or passed `end` in the direction of travel, snap
to `end` and clear the timer; in either case render the rounded value.  A
cleared timer never fires again, so the step is the identity when inactive. -/
def tweenTick (finish increment : ℚ) (s : TweenState) : TweenState :=
  if s.active then
    let c := s.current + increment
    if (increment > 0 ∧ c ≥ finish) ∨ (increment < 0 ∧ c ≤ finish) then
      { current := finish, active := false, rendered := some (jsRound finish) }
    else
      { current := c, active := true, rendered := some (jsRound c) }
  else s

/-- The tween state of `animateNumber start finish duration` after `n` timer
ticks (tick interval 16 ms). -/
def runTween (start finish duration : ℚ) : ℕ → TweenState
  | 0 => { current := start, active := true, rendered := none }
  | n + 1 => tweenTick finish (tweenIncrement start finish duration) (runTween start finish duration n)

/-! ### Gauge, ring, sentiment, chart and keyword rendering -/

/-- `animateGauge(score)` (script.js 110-134), at its settled state: the
`setTimeout` body has run (dashoffset and stroke color set) and the
`animateNumber` tween has reached its final rendered value `round(score)`. -/
def animateGauge (score : ℚ) (s : UIState) : UIState :=
  { s with
    gaugeDashoffset := some (251.2 - score / 100 * 251.2)
    gaugeStroke := some (if score > 80 then "#ef4444" else if score > 50 then "#f59e0b" else "#6366f1")
    gaugeScoreText := some (jsRound score) }

/-- `animateEthicalScore(score)` (script.js 139-165), at its settled state. -/
def animateEthicalScore (score : ℚ) (s : UIState) : UIState :=
  { s with
    ethicalDashoffset := some (283 - score / 100 * 283)
    ethicalStroke := some (if score > 70 then "#10b981" else if score > 40 then "#f59e0b" else "#ef4444")
    ethicalTextFill := some (if score > 70 then "#10b981" else if score > 40 then "#f59e0b" else "#ef4444")
    ethicalScoreText := some (jsRound score) }

/-- `displaySentiment(sentiment)` (script.js 188-207), at its settled state
(the `setTimeout` body that sets the bar widths has run). -/
def displaySentiment (sent : Sentiment) (s : UIState) : UIState :=
  { s with
    polarityBarWidth := some ((sent.polarity + 1) / 2 * 100)
    subjectivityBarWidth := some (sent.subjectivity * 100)
    polarityValueText := some (toFixed3 sent.polarity)
    subjectivityValueText := some (toFixed3 sent.subjectivity) }

/-- `displayEmotionChart(emotions)` (script.js 212-272): destroy the existing
chart instance if there is one, then create a fresh chart from the mapping. -/
def displayEmotionChart (emotions : List (String × ℚ)) (s : UIState) : UIState :=
  let alive := if s.emotionChart.isSome then s.chartsAlive - 1 else s.chartsAlive
  { s with
    emotionChart := some (mkEmotionChart emotions)
    chartsAlive := alive + 1 }

/-- The category-breakdown loop of `displayKeywords` (script.js 285-295): one
row per `by_category` entry with count > 0, the category name with its first
underscore replaced by a space. -/
def categoryRowsLoop : List (String × ℤ) → List (String × ℤ)
  | [] => []
  | (cat, cnt) :: rest =>
      if cnt > 0 then (jsReplaceUnderscore cat, cnt) :: categoryRowsLoop rest
      else categoryRowsLoop rest

/-- The `forEach` keyword-tag loop of `displayKeywords` (script.js 302-307):
append one tag per found word, in order. -/
def keywordTagsLoop : List String → List String
  | [] => []
  | w :: ws => w :: keywordTagsLoop ws

/-- `displayKeywords(keywordsData)` (script.js 277-311): total count, the
category rows, and either the word tags (when `words_found.length > 0`) or
the placeholder paragraph. -/
def displayKeywords (kd : Keywords) (s : UIState) : UIState :=
  { s with
    keywordCountText := some kd.count
    keywordCategoryRows := categoryRowsLoop kd.by_category
    keywordTags := if 0 < kd.words_found.length then keywordTagsLoop kd.words_found else []
    keywordPlaceholder := if 0 < kd.words_found.length then false else true }

/-- `displayResults(data)` (script.js 83-105), at its settled state. -/
def displayResults (data : AnalysisResult) (s : UIState) : UIState :=
  let s1 := animateGauge data.persuasion_score s
  let s2 := { s1 with persuasionLabelText := data.persuasion_label }
  let s3 := animateEthicalScore data.ethical_score s2
  let s4 := { s3 with ethicalReflectionText := data.ethical_reflection }
  let s5 := displaySentiment data.sentiment s4
  let s6 := displayEmotionChart data.emotions s5
  let s7 := displayKeywords data.persuasive_keywords s6
  { s7 with highlightedHTML := data.highlighted_text }

/-! ### The analyze-button click handler (script.js 33-78) -/

/-- Outcome of the `fetch` / `response.json()` sequence, resolved before the
handler model runs (the handler awaits each step deterministically):
network failure (`fetch` rejects), non-2xx with parsed body carrying an
optional `error` field, non-2xx whose body fails to parse, 2xx whose body
fails to parse, or 2xx with a parsed `AnalysisResult`. -/
inductive FetchOutcome where
  | netError (msg : String)
  | httpError (errField : Option String)
  | httpErrorBadBody (parseMsg : String)
  | okBadBody (parseMsg : String)
  | success (data : AnalysisResult)
deriving Repr, DecidableEq

/-- `true` on every outcome other than a parsed 2xx response. -/
def FetchOutcome.isFailure : FetchOutcome → Bool
  | .success _ => false
  | _ => true

/-- The message of the `Error` thrown / caught for each failing outcome:
`error.error || 'Analysis failed'` for a parsed non-2xx body, the thrown
parse or network error's own message otherwise. -/
def failureMessage : FetchOutcome → String
  | .netError m => m
  | .httpError errField => errField.getD "Analysis failed"
  | .httpErrorBadBody m => m
  | .okBadBody m => m
  | .success _ => ""

/-- The validation notice of script.js line 38. -/
def validationNotice : String := "Please enter at least 10 characters of text to analyze."

/-- The `analyzeBtn` click handler (script.js 33-78), given the raw textarea
content and the resolved fetch outcome.  Returns the final page state and the
list of request bodies POSTed to `/analyze` during the run. -/
def clickHandler (raw : String) (outcome : FetchOutcome) (s : UIState) :
    UIState × List String :=
  let textInput := jsTrim raw
  if textInput = "" ∨ textInput.length < 10 then
    ({ s with alerts := s.alerts ++ [validationNotice] }, [])
  else
    let s1 := { s with loadingVisible := true, resultsVisible := false,
                       analyzeBtnDisabled := true }
    match outcome with
    | .success data =>
        let s2 := { s1 with loadingVisible := false, resultsVisible := true }
        let s3 := displayResults data s2
        ({ s3 with analyzeBtnDisabled := false }, [textInput])
    | o =>
        ({ s1 with
            alerts := s1.alerts ++ ["Error: " ++ failureMessage o]
            loadingVisible := false
            analyzeBtnDisabled := false }, [textInput])

/-- A concrete response payload, used to instantiate universally quantified
theorems at a specific input. -/
def sampleResult : AnalysisResult where
  persuasion_score := 72
  persuasion_label := "Highly Persuasive"
  ethical_score := 35
  ethical_reflection := "Uses strong emotional appeals."
  sentiment := ⟨1/2, 3/10⟩
  emotions := [("joy", 40), ("fear", 60)]
  persuasive_keywords := ⟨2, [("emotional_appeal", 2), ("urgency", 0)], ["amazing", "now"]⟩
  highlighted_text := "some markup"

/-! ## Helper lemmas -/

/-- A trimmed input of length at least 10 passes the validation test of
script.js line 37. -/
theorem validation_passes {raw : String} (h : 10 ≤ (jsTrim raw).length) :
    ¬(jsTrim raw = "" ∨ (jsTrim raw).length < 10) := by
  rintro (h1 | h2)
  · rw [h1] at h; exact absurd h (by decide)
  · omega

/-! ## Claims -/

/-- C1: for every raw user input whose trimmed length is less than 10
characters, clicking the analyze trigger blocks submission with the blocking
notice and issues no network request to `/analyze`. -/
theorem short_input_blocked_no_request
    (raw : String) (o : FetchOutcome) (s : UIState)
    (h : (jsTrim raw).length < 10) :
    (clickHandler raw o s).2 = [] ∧
    (clickHandler raw o s).1.alerts = s.alerts ++ [validationNotice] := by
  simp only [clickHandler, if_pos (Or.inr h)]
  refine ⟨?_, ?_⟩ <;> trivial

/-- Witness for C1 at the concrete input `"   hi  "` (trimmed length 2). -/
theorem short_input_blocked_no_request_w :
    (jsTrim "   hi  ").length < 10 ∧
    ((clickHandler "   hi  " (.netError "x") initialUI).2 = [] ∧
     (clickHandler "   hi  " (.netError "x") initialUI).1.alerts
       = initialUI.alerts ++ [validationNotice]) :=
  ⟨by decide, short_input_blocked_no_request "   hi  " (.netError "x") initialUI (by decide)⟩

/-- C10: when validation rejects the input, the handler returns before any
other state change: the disabled flag of the trigger, the loading indicator,
the results area's visibility, the chart reference and the count of live
charts are all unchanged. -/
theorem short_input_frame
    (raw : String) (o : FetchOutcome) (s : UIState)
    (h : (jsTrim raw).length < 10) :
    (clickHandler raw o s).1.analyzeBtnDisabled = s.analyzeBtnDisabled ∧
    (clickHandler raw o s).1.loadingVisible = s.loadingVisible ∧
    (clickHandler raw o s).1.resultsVisible = s.resultsVisible ∧
    (clickHandler raw o s).1.emotionChart = s.emotionChart ∧
    (clickHandler raw o s).1.chartsAlive = s.chartsAlive := by
  simp only [clickHandler, if_pos (Or.inr h)]
  refine ⟨?_, ?_, ?_, ?_, ?_⟩ <;> trivial

/-- Witness for C10 at the concrete input `"short"`. -/
theorem short_input_frame_w :
    (jsTrim "short").length < 10 ∧
    ((clickHandler "short" (.success sampleResult) initialUI).1.analyzeBtnDisabled
       = initialUI.analyzeBtnDisabled ∧
     (clickHandler "short" (.success sampleResult) initialUI).1.loadingVisible
       = initialUI.loadingVisible ∧
     (clickHandler "short" (.success sampleResult) initialUI).1.resultsVisible
       = initialUI.resultsVisible ∧
     (clickHandler "short" (.success sampleResult) initialUI).1.emotionChart
       = initialUI.emotionChart ∧
     (clickHandler "short" (.success sampleResult) initialUI).1.chartsAlive
       = initialUI.chartsAlive) :=
  ⟨by decide, short_input_frame "short" (.success sampleResult) initialUI (by decide)⟩

/-- C3: for every non-2xx response whose body parses, the handler surfaces
the payload's `error` message prefixed by "Error: ", falling back to
"Analysis failed" when the field is absent, and ends with the trigger
re-enabled.  At `errField = some "bad text"` the notice is exactly
"Error: bad text". -/
theorem httpError_surfaces_message
    (raw : String) (errField : Option String) (s : UIState)
    (h : 10 ≤ (jsTrim raw).length) :
    (clickHandler raw (.httpError errField) s).1.alerts
      = s.alerts ++ ["Error: " ++ errField.getD "Analysis failed"] ∧
    (clickHandler raw (.httpError errField) s).1.analyzeBtnDisabled = false := by
  simp only [clickHandler, if_neg (validation_passes h)]
  refine ⟨?_, ?_⟩ <;> trivial

/-- Witness for C3 at a long-enough input and error body `{"error":"bad text"}`:
the notice is "Error: bad text" and the trigger ends enabled. -/
theorem httpError_surfaces_message_w :
    10 ≤ (jsTrim "this text is long enough").length ∧
    ((clickHandler "this text is long enough" (.httpError (some "bad text")) initialUI).1.alerts
       = initialUI.alerts ++ ["Error: " ++ (some "bad text").getD "Analysis failed"] ∧
     (clickHandler "this text is long enough" (.httpError (some "bad text")) initialUI).1.analyzeBtnDisabled
       = false) :=
  ⟨by decide,
   httpError_surfaces_message "this text is long enough" (some "bad text") initialUI (by decide)⟩

/-- C9: for every attempt that passes validation, a failing outcome (network
failure, non-2xx response, or unparseable body) leaves the results area
hidden, and the loading indicator ends hidden on every outcome, success or
failure. -/
theorem failure_hides_results_spinner_cleared
    (raw : String) (o : FetchOutcome) (s : UIState)
    (h : 10 ≤ (jsTrim raw).length) :
    (o.isFailure = true → (clickHandler raw o s).1.resultsVisible = false) ∧
    (clickHandler raw o s).1.loadingVisible = false := by
  simp only [clickHandler, if_neg (validation_passes h)]
  cases o <;>
    simp [FetchOutcome.isFailure, displayResults, animateGauge, animateEthicalScore,
      displaySentiment, displayEmotionChart, displayKeywords]

/-- Witness for C9 at a long-enough input and a network failure. -/
theorem failure_hides_results_spinner_cleared_w :
    10 ≤ (jsTrim "this text is long enough").length ∧
    (((FetchOutcome.netError "boom").isFailure = true →
        (clickHandler "this text is long enough" (.netError "boom") initialUI).1.resultsVisible
          = false) ∧
     (clickHandler "this text is long enough" (.netError "boom") initialUI).1.loadingVisible
       = false) :=
  ⟨by decide,
   failure_hides_results_spinner_cleared "this text is long enough" (.netError "boom")
     initialUI (by decide)⟩

/-- C5: for all scores s in [0,100], the persuasion gauge stroke is the high
tier for s > 80, the moderate tier for 50 < s ≤ 80 and the low tier for
s ≤ 50; the ethical ring analogously uses thresholds 70 and 40 with its own
color tiers. -/
theorem score_color_tiers (sc : ℚ) (s : UIState) (h0 : 0 ≤ sc) (h100 : sc ≤ 100) :
    ((sc > 80 → (animateGauge sc s).gaugeStroke = some "#ef4444") ∧
     (50 < sc ∧ sc ≤ 80 → (animateGauge sc s).gaugeStroke = some "#f59e0b") ∧
     (sc ≤ 50 → (animateGauge sc s).gaugeStroke = some "#6366f1")) ∧
    ((sc > 70 → (animateEthicalScore sc s).ethicalStroke = some "#10b981") ∧
     (40 < sc ∧ sc ≤ 70 → (animateEthicalScore sc s).ethicalStroke = some "#f59e0b") ∧
     (sc ≤ 40 → (animateEthicalScore sc s).ethicalStroke = some "#ef4444")) := by
  refine ⟨⟨fun h => ?_, fun h => ?_, fun h => ?_⟩, fun h => ?_, fun h => ?_, fun h => ?_⟩ <;>
    simp only [animateGauge, animateEthicalScore]
  · rw [if_pos h]
  · rw [if_neg (by linarith [h.2]), if_pos h.1]
  · rw [if_neg (by linarith), if_neg (by linarith)]
  · rw [if_pos h]
  · rw [if_neg (by linarith [h.2]), if_pos h.1]
  · rw [if_neg (by linarith), if_neg (by linarith)]

/-- Witness for C5 at score 60: moderate gauge tier and moderate ring tier. -/
theorem score_color_tiers_w :
    (0:ℚ) ≤ 60 ∧ (60:ℚ) ≤ 100 ∧ ((50:ℚ) < 60 ∧ (60:ℚ) ≤ 80) ∧ ((40:ℚ) < 60 ∧ (60:ℚ) ≤ 70) ∧
    (animateGauge 60 initialUI).gaugeStroke = some "#f59e0b" ∧
    (animateEthicalScore 60 initialUI).ethicalStroke = some "#f59e0b" :=
  ⟨by norm_num, by norm_num, ⟨by norm_num, by norm_num⟩, ⟨by norm_num, by norm_num⟩,
   ((score_color_tiers 60 initialUI (by norm_num) (by norm_num)).1.2.1 ⟨by norm_num, by norm_num⟩),
   ((score_color_tiers 60 initialUI (by norm_num) (by norm_num)).2.2.1 ⟨by norm_num, by norm_num⟩)⟩

/-- C6: for every sentiment with polarity in [-1,1] and subjectivity in
[0,1], the polarity bar fills to (p+1)/2*100 percent (0 at -1, 50 at 0,
100 at 1), the subjectivity bar to q*100 percent, and both raw values are
displayed rounded to 3 decimal places. -/
theorem sentiment_bar_mapping (p q : ℚ) (s : UIState)
    (hp1 : -1 ≤ p) (hp2 : p ≤ 1) (hq1 : 0 ≤ q) (hq2 : q ≤ 1) :
    (displaySentiment ⟨p, q⟩ s).polarityBarWidth = some ((p + 1) / 2 * 100) ∧
    (displaySentiment ⟨p, q⟩ s).subjectivityBarWidth = some (q * 100) ∧
    (displaySentiment ⟨p, q⟩ s).polarityValueText = some (toFixed3 p) ∧
    (displaySentiment ⟨p, q⟩ s).subjectivityValueText = some (toFixed3 q) ∧
    (p = -1 → (p + 1) / 2 * 100 = 0) ∧
    (p = 0 → (p + 1) / 2 * 100 = 50) ∧
    (p = 1 → (p + 1) / 2 * 100 = 100) := by
  refine ⟨rfl, rfl, rfl, rfl, fun h => ?_, fun h => ?_, fun h => ?_⟩ <;>
    rw [h] <;> norm_num

/-- Witness for C6 at polarity -1 and subjectivity 1/2: the polarity bar is
exactly 0 percent. -/
theorem sentiment_bar_mapping_w :
    (-1 ≤ (-1 : ℚ) ∧ (-1 : ℚ) ≤ 1 ∧ (0:ℚ) ≤ 1/2 ∧ (1:ℚ)/2 ≤ 1) ∧
    ((displaySentiment ⟨-1, 1/2⟩ initialUI).polarityBarWidth = some ((-1 + 1) / 2 * 100) ∧
     (displaySentiment ⟨-1, 1/2⟩ initialUI).subjectivityBarWidth = some (1/2 * 100) ∧
     ((-1 : ℚ) + 1) / 2 * 100 = 0) :=
  ⟨⟨by norm_num, by norm_num, by norm_num, by norm_num⟩,
   (sentiment_bar_mapping (-1) (1/2) initialUI (by norm_num) (by norm_num)
      (by norm_num) (by norm_num)).1,
   (sentiment_bar_mapping (-1) (1/2) initialUI (by norm_num) (by norm_num)
      (by norm_num) (by norm_num)).2.1,
   (sentiment_bar_mapping (-1) (1/2) initialUI (by norm_num) (by norm_num)
      (by norm_num) (by norm_num)).2.2.2.2.1 rfl⟩

/-- The tag loop renders exactly the found words, in order. -/
theorem keywordTagsLoop_eq (l : List String) : keywordTagsLoop l = l := by
  induction l with
  | nil => rfl
  | cons w ws ih => simp [keywordTagsLoop, ih]

/-- The category loop renders exactly the positive-count entries, each with
its first underscore replaced. -/
theorem categoryRowsLoop_eq (l : List (String × ℤ)) :
    categoryRowsLoop l
      = (l.filter (fun e => 0 < e.2)).map (fun e => (jsReplaceUnderscore e.1, e.2)) := by
  induction l with
  | nil => rfl
  | cons e rest ih =>
      by_cases h : 0 < e.2
      · simp [categoryRowsLoop, List.filter, h, ih, decide_eq_true_eq]
      · simp [categoryRowsLoop, List.filter, h, ih, decide_eq_true_eq]

/-- C8: for every keywords object the panel shows the total count, one
category/count row exactly for each category with positive count, and every
found word as an individual tag, with the placeholder shown exactly when no
word was found; in particular at `{count := 0, by_category := [],
words_found := []}` it shows count 0, no rows, and the placeholder. -/
theorem keywords_panel (kd : Keywords) (s : UIState) :
    (displayKeywords kd s).keywordCountText = some kd.count ∧
    (displayKeywords kd s).keywordCategoryRows
      = (kd.by_category.filter (fun e => 0 < e.2)).map
          (fun e => (jsReplaceUnderscore e.1, e.2)) ∧
    (displayKeywords kd s).keywordTags = kd.words_found ∧
    ((displayKeywords kd s).keywordPlaceholder = true ↔ kd.words_found = []) ∧
    ((displayKeywords ⟨0, [], []⟩ s).keywordCountText = some 0 ∧
     (displayKeywords ⟨0, [], []⟩ s).keywordCategoryRows = [] ∧
     (displayKeywords ⟨0, [], []⟩ s).keywordPlaceholder = true) := by
  refine ⟨rfl, ?_, ?_, ?_, rfl, rfl, rfl⟩
  · simpa [displayKeywords] using categoryRowsLoop_eq kd.by_category
  · cases h : kd.words_found with
    | nil => simp [displayKeywords, h]
    | cons w ws => simp [displayKeywords, h, keywordTagsLoop_eq]
  · cases h : kd.words_found with
    | nil => simp [displayKeywords, h]
    | cons w ws => simp [displayKeywords, h]

/-- C4: rendering is idempotent per result — rendering the same
AnalysisResult twice yields the same state as rendering it once — and, from
any state whose live-chart count matches its chart reference, rendering
leaves exactly one chart instance alive (the existing instance is destroyed
before the replacement is created). -/
theorem render_idempotent_one_chart (d : AnalysisResult) (s : UIState) :
    displayResults d (displayResults d s) = displayResults d s ∧
    (s.chartsAlive = (if s.emotionChart.isSome then 1 else 0) →
      (displayResults d s).chartsAlive = 1) := by
  constructor
  · simp only [displayResults, animateGauge, animateEthicalScore, displaySentiment,
      displayEmotionChart, displayKeywords]
    simp only [Option.isSome_some, if_true, UIState.mk.injEq, and_true, true_and]
    omega
  · intro h
    simp only [displayResults, animateGauge, animateEthicalScore, displaySentiment,
      displayEmotionChart, displayKeywords]
    cases hc : s.emotionChart <;> simp [hc] at h ⊢ <;> omega

/-- Witness for C4 at the sample result and the on-load state (no chart
alive, no chart reference). -/
theorem render_idempotent_one_chart_w :
    initialUI.chartsAlive = (if initialUI.emotionChart.isSome then 1 else 0) ∧
    displayResults sampleResult (displayResults sampleResult initialUI)
      = displayResults sampleResult initialUI ∧
    (displayResults sampleResult initialUI).chartsAlive = 1 :=
  ⟨by decide,
   (render_idempotent_one_chart sampleResult initialUI).1,
   (render_idempotent_one_chart sampleResult initialUI).2 (by decide)⟩

/-- Counterexample to C7: the chart colors are assigned by position in the
key order, not by emotion category — with keys `[joy, fear]` the Fear segment
is red (`#ef4444`), with keys `[fear, joy]` the same category Fear is green
(`#10b981`), so a category's color does depend on key order. -/
theorem emotion_color_depends_on_key_order :
    segmentColorFor (mkEmotionChart [("joy", 40), ("fear", 60)]) "Fear"
      = some (some "#ef4444") ∧
    segmentColorFor (mkEmotionChart [("fear", 60), ("joy", 40)]) "Fear"
      = some (some "#10b981") ∧
    segmentColorFor (mkEmotionChart [("joy", 40), ("fear", 60)]) "Fear"
      ≠ segmentColorFor (mkEmotionChart [("fear", 60), ("joy", 40)]) "Fear" := by
  refine ⟨?_, ?_, ?_⟩ <;> decide

/-- C7 amended: the chart has one segment per emotion key, labelled with the
capitalized key and valued with that key's share; segment `i` is assigned the
`i`-th color of the fixed palette positionally (no color beyond the fourth
segment), so a category's color depends on the key order; the tooltip shows
the label and the one-decimal percentage. -/
theorem emotion_chart_segments (es : List (String × ℚ)) (i : ℕ) :
    (mkEmotionChart es).segments.length = es.length ∧
    (mkEmotionChart es).segments.get? i
      = (es.get? i).map (fun e => ⟨capitalizeFirst e.1, e.2, emotionPalette.get? i⟩) ∧
    (∀ seg, chartTooltip seg = (seg.label, toFixed1 seg.value)) := by
  have hlen : ∀ (l : List (String × ℚ)) (j : ℕ), (mkSegments j l).length = l.length := by
    intro l
    induction l with
    | nil => intro j; rfl
    | cons e rest ih => intro j; simp [mkSegments, ih]
  have hget : ∀ (l : List (String × ℚ)) (j k : ℕ),
      (mkSegments j l).get? k
        = (l.get? k).map (fun e => ⟨capitalizeFirst e.1, e.2, emotionPalette.get? (j + k)⟩) := by
    intro l
    induction l with
    | nil => intro j k; simp [mkSegments]
    | cons e rest ih =>
        obtain ⟨ek, ev⟩ := e
        intro j k
        cases k with
        | zero => rfl
        | succ k =>
            show (mkSegments (j + 1) rest).get? k
              = (rest.get? k).map
                  (fun e => ⟨capitalizeFirst e.1, e.2, emotionPalette.get? (j + (k + 1))⟩)
            rw [ih (j + 1) k, show j + 1 + k = j + (k + 1) from by omega]
  exact ⟨hlen es 0, by simpa using hget es 0 i, fun seg => rfl⟩

/-- A cleared interval timer never fires again: the tick is the identity on
an inactive tween state. -/
theorem tweenTick_inactive (fi inc : ℚ) (ts : TweenState) (h : ts.active = false) :
    tweenTick fi inc ts = ts := by
  simp [tweenTick, h]

/-- Tween invariant: while the timer is active the accumulated value is
`start + n * increment`; once inactive the state is the snapped final state
(target value, timer cleared, rounded target rendered). -/
theorem runTween_invariant (st fi du : ℚ) (n : ℕ) :
    ((runTween st fi du n).active = true →
      (runTween st fi du n).current = st + n * tweenIncrement st fi du) ∧
    ((runTween st fi du n).active = false →
      runTween st fi du n = ⟨fi, false, some (jsRound fi)⟩) := by
  induction n with
  | zero =>
      refine ⟨fun _ => by simp [runTween], fun h => ?_⟩
      simp [runTween] at h
  | succ n ih =>
      cases hact : (runTween st fi du n).active with
      | false =>
          have heq := ih.2 hact
          constructor
          · intro h
            simp only [runTween] at h
            rw [tweenTick_inactive _ _ _ hact, hact] at h
            cases h
          · intro _
            simp only [runTween]
            rw [tweenTick_inactive _ _ _ hact, heq]
      | true =>
          have hcur := ih.1 hact
          by_cases hc : (tweenIncrement st fi du > 0 ∧
                (runTween st fi du n).current + tweenIncrement st fi du ≥ fi) ∨
              (tweenIncrement st fi du < 0 ∧
                (runTween st fi du n).current + tweenIncrement st fi du ≤ fi)
          · constructor
            · intro h
              simp only [runTween] at h
              simp [tweenTick, hact, hc] at h
            · intro _
              simp only [runTween]
              simp [tweenTick, hact, hc]
          · constructor
            · intro _
              simp only [runTween]
              simp only [tweenTick, hact, if_true]
              rw [if_neg hc]
              show (runTween st fi du n).current + tweenIncrement st fi du
                = st + (n + 1 : ℕ) * tweenIncrement st fi du
              rw [hcur]
              push_cast
              ring
            · intro h
              simp only [runTween] at h
              simp [tweenTick, hact, hc] at h

/-- An interval still active after `n+1` ticks has just rendered the rounded
accumulated value `start + (n+1) * increment`, which has not yet reached the
target in the direction of travel. -/
theorem runTween_succ_active (st fi du : ℚ) (n : ℕ)
    (h : (runTween st fi du (n + 1)).active = true) :
    runTween st fi du (n + 1)
      = ⟨st + (n + 1) * tweenIncrement st fi du, true,
         some (jsRound (st + (n + 1) * tweenIncrement st fi du))⟩ ∧
    ¬((tweenIncrement st fi du > 0 ∧ st + (n + 1) * tweenIncrement st fi du ≥ fi) ∨
      (tweenIncrement st fi du < 0 ∧ st + (n + 1) * tweenIncrement st fi du ≤ fi)) := by
  cases hact : (runTween st fi du n).active with
  | false =>
      exfalso
      simp only [runTween] at h
      rw [tweenTick_inactive _ _ _ hact, hact] at h
      cases h
  | true =>
      have hcur := (runTween_invariant st fi du n).1 hact
      by_cases hc : (tweenIncrement st fi du > 0 ∧
            (runTween st fi du n).current + tweenIncrement st fi du ≥ fi) ∨
          (tweenIncrement st fi du < 0 ∧
            (runTween st fi du n).current + tweenIncrement st fi du ≤ fi)
      · exfalso
        simp only [runTween] at h
        simp [tweenTick, hact, hc] at h
      · have harith : (runTween st fi du n).current + tweenIncrement st fi du
            = st + ((n : ℚ) + 1) * tweenIncrement st fi du := by
          rw [hcur]; ring
        have hstep : runTween st fi du (n + 1)
            = ⟨st + (n + 1) * tweenIncrement st fi du, true,
               some (jsRound (st + (n + 1) * tweenIncrement st fi du))⟩ := by
          simp only [runTween]
          simp only [tweenTick, hact, if_true]
          rw [if_neg hc, harith]
        refine ⟨hstep, fun hcon => hc ?_⟩
        rw [harith]
        exact hcon

/-- Once the timer is cleared it stays cleared in the snapped final state. -/
theorem runTween_stays (st fi du : ℚ) (n : ℕ)
    (h : (runTween st fi du n).active = false) :
    ∀ m, n ≤ m → runTween st fi du m = ⟨fi, false, some (jsRound fi)⟩ := by
  intro m
  induction m with
  | zero =>
      intro hm
      have h0 : n = 0 := Nat.le_zero.mp hm
      subst h0
      exact (runTween_invariant st fi du 0).2 h
  | succ m ih =>
      intro hm
      rcases Nat.lt_or_ge n (m + 1) with hlt | hge
      · have hprev := ih (by omega)
        simp only [runTween]
        rw [hprev]
        exact tweenTick_inactive _ _ _ rfl
      · have h1 : n = m + 1 := by omega
        subst h1
        exact (runTween_invariant st fi du (m + 1)).2 h

/-- With a positive duration and distinct endpoints, the timer is eventually
cleared: from some tick on, the tween sits in the snapped final state. -/
theorem runTween_terminates (st fi du : ℚ) (hd : 0 < du) (hne : st ≠ fi) :
    ∃ N, ∀ m, N ≤ m → runTween st fi du m = ⟨fi, false, some (jsRound fi)⟩ := by
  have hdu16 : 0 < du / 16 := by positivity
  have hinc : tweenIncrement st fi du = (fi - st) / (du / 16) := rfl
  have key : ∀ n, (runTween st fi du (n + 1)).active = true →
      (tweenIncrement st fi du > 0 → st + ((n : ℚ) + 1) * tweenIncrement st fi du < fi) ∧
      (tweenIncrement st fi du < 0 → fi < st + ((n : ℚ) + 1) * tweenIncrement st fi du) := by
    intro n h
    have h2 := (runTween_succ_active st fi du n h).2
    push_neg at h2
    exact h2
  rcases lt_or_gt_of_ne hne with hlt | hgt
  · have hincpos : 0 < tweenIncrement st fi du := by
      rw [hinc]
      exact div_pos (by linarith) hdu16
    refine ⟨⌈(fi - st) / tweenIncrement st fi du⌉₊, ?_⟩
    have hceil : (fi - st) / tweenIncrement st fi du
        ≤ (⌈(fi - st) / tweenIncrement st fi du⌉₊ : ℚ) := Nat.le_ceil _
    have hreach : fi - st ≤ (⌈(fi - st) / tweenIncrement st fi du⌉₊ : ℚ)
        * tweenIncrement st fi du := by
      calc fi - st = (fi - st) / tweenIncrement st fi du * tweenIncrement st fi du := by
            field_simp
        _ ≤ _ := mul_le_mul_of_nonneg_right hceil (le_of_lt hincpos)
    have hact : (runTween st fi du ⌈(fi - st) / tweenIncrement st fi du⌉₊).active = false := by
      by_contra hcon
      rw [Bool.not_eq_false] at hcon
      have hpos : 0 < ⌈(fi - st) / tweenIncrement st fi du⌉₊ :=
        Nat.ceil_pos.mpr (div_pos (by linarith) hincpos)
      obtain ⟨M, hM⟩ : ∃ M, ⌈(fi - st) / tweenIncrement st fi du⌉₊ = M + 1 :=
        ⟨⌈(fi - st) / tweenIncrement st fi du⌉₊ - 1, by omega⟩
      rw [hM] at hcon hreach
      have hlt2 := (key M hcon).1 hincpos
      push_cast at hreach
      linarith
    exact runTween_stays st fi du _ hact
  · have hincneg : tweenIncrement st fi du < 0 := by
      rw [hinc]
      exact div_neg_of_neg_of_pos (by linarith) hdu16
    have hne0 : tweenIncrement st fi du ≠ 0 := ne_of_lt hincneg
    refine ⟨⌈(fi - st) / tweenIncrement st fi du⌉₊, ?_⟩
    have hceil : (fi - st) / tweenIncrement st fi du
        ≤ (⌈(fi - st) / tweenIncrement st fi du⌉₊ : ℚ) := Nat.le_ceil _
    have hreach : (⌈(fi - st) / tweenIncrement st fi du⌉₊ : ℚ) * tweenIncrement st fi du
        ≤ fi - st := by
      calc (⌈(fi - st) / tweenIncrement st fi du⌉₊ : ℚ) * tweenIncrement st fi du
          ≤ (fi - st) / tweenIncrement st fi du * tweenIncrement st fi du :=
            mul_le_mul_of_nonpos_right hceil (le_of_lt hincneg)
        _ = fi - st := div_mul_cancel₀ _ hne0
    have hact : (runTween st fi du ⌈(fi - st) / tweenIncrement st fi du⌉₊).active = false := by
      by_contra hcon
      rw [Bool.not_eq_false] at hcon
      have hpos : 0 < ⌈(fi - st) / tweenIncrement st fi du⌉₊ :=
        Nat.ceil_pos.mpr (div_pos_iff.mpr (Or.inr ⟨by linarith, hincneg⟩))
      obtain ⟨M, hM⟩ : ∃ M, ⌈(fi - st) / tweenIncrement st fi du⌉₊ = M + 1 :=
        ⟨⌈(fi - st) / tweenIncrement st fi du⌉₊ - 1, by omega⟩
      rw [hM] at hcon hreach
      have hlt2 := (key M hcon).2 hincneg
      push_cast at hreach
      linarith
    exact runTween_stays st fi du _ hact

/-- Counterexample to C2: the interval timer is not always eventually
cleared.  At start = end = 0 (a zero score animated from zero, as
`animateNumber(el, 0, 0, 2000)` does) the increment is 0, the snap condition
never fires, and the timer stays active after every tick. -/
theorem animateNumber_timer_never_cleared :
    ¬ ∀ (st fi du : ℚ), ∃ n, (runTween st fi du n).active = false := by
  intro hall
  obtain ⟨n, hn⟩ := hall 0 0 2000
  have hactive : ∀ m, (runTween 0 0 2000 m).active = true := by
    intro m
    induction m with
    | zero => rfl
    | succ k ih =>
        have hinc : tweenIncrement 0 0 2000 = 0 := by
          norm_num [tweenIncrement]
        simp [runTween, tweenTick, ih, hinc]
  rw [hactive n] at hn
  cases hn

/-- C2 corrected: the tween computes the per-tick increment
(end-start)/(duration/tickInterval); while active, each tick adds the
increment and renders the rounded accumulated value; and whenever the
duration is positive and start ≠ end it snaps to `end` once reached or
passed in the direction of travel, and the interval timer is cleared and
stays cleared with the rounded target rendered.  (When start = end the
increment is 0 and the timer is never cleared.) -/
theorem animateNumber_tween (st fi du : ℚ) (hd : 0 < du) (hne : st ≠ fi) :
    tweenIncrement st fi du = (fi - st) / (du / 16) ∧
    (∀ n, (runTween st fi du (n + 1)).active = true →
      runTween st fi du (n + 1)
        = ⟨st + ((n : ℚ) + 1) * tweenIncrement st fi du, true,
           some (jsRound (st + ((n : ℚ) + 1) * tweenIncrement st fi du))⟩) ∧
    (∃ N, ∀ m, N ≤ m → runTween st fi du m = ⟨fi, false, some (jsRound fi)⟩) :=
  ⟨rfl, fun n h => (runTween_succ_active st fi du n h).1,
   runTween_terminates st fi du hd hne⟩

/-- Witness for the corrected C2 at start 0, end 50, duration 2000. -/
theorem animateNumber_tween_w :
    (0 : ℚ) < 2000 ∧ (0 : ℚ) ≠ 50 ∧
    (tweenIncrement 0 50 2000 = (50 - 0) / (2000 / 16) ∧
     (∀ n, (runTween 0 50 2000 (n + 1)).active = true →
       runTween 0 50 2000 (n + 1)
         = ⟨0 + ((n : ℚ) + 1) * tweenIncrement 0 50 2000, true,
            some (jsRound (0 + ((n : ℚ) + 1) * tweenIncrement 0 50 2000))⟩) ∧
     (∃ N, ∀ m, N ≤ m → runTween 0 50 2000 m = ⟨50, false, some (jsRound 50)⟩)) :=
  ⟨by norm_num, by norm_num, animateNumber_tween 0 50 2000 (by norm_num) (by norm_num)⟩

end DMPA
